import Mathlib

/-!
Verification development for the prompt engine and execution sandbox of the
personal-ai-data-analyst repository. The Python modules prompt_engine.py and
code_runner.py are shallowly embedded: pandas dataframes become an explicit
tabular structure, the pandas to_datetime parser becomes an explicit oracle
parameter, and the dynamic exec call of the sandbox becomes an explicit record
of the observable effects of one execution.
-/

namespace Analyst

/-- A cell of a tabular dataset: a numeric value, a text value, or missing.
Numeric cells carry exact rationals; missing data is the `na` marker. -/
inductive Cell where
  | num (q : ℚ)
  | str (s : String)
  | na
deriving DecidableEq

/-- Column dtype as far as the engine inspects it: a numeric kind, the
datetime64 kind, or anything else (the pandas object dtype). -/
inductive Dtype where
  | numeric
  | datetime64
  | object
deriving DecidableEq

/-- In-memory dataset: named typed columns, a row index, and rows of cells.
Row r has index label `index[r]` and cells `rows[r]`, one per column. -/
structure DataFrame where
  colNames : List String
  dtypes : List Dtype
  index : List Nat
  rows : List (List Cell)
deriving DecidableEq

/-- A single named column together with its dtype and its cells, the view the
schema profiler works on. -/
structure Column where
  name : String
  dtype : Dtype
  cells : List Cell
deriving DecidableEq

/-- Cells of column number j, reading down the rows. -/
def DataFrame.colCells (df : DataFrame) (j : Nat) : List Cell :=
  df.rows.map (fun r => r.getD j Cell.na)

/-- The ordered column list of a dataframe. -/
def DataFrame.colList (df : DataFrame) : List Column :=
  (df.colNames.zip df.dtypes).enum.map (fun p => ⟨p.2.1, p.2.2, df.colCells p.1⟩)

/-- Rendering of a cell by astype(str): missing cells are dropped by dropna
before rendering, numeric cells render like pandas integers render. -/
def Cell.render : Cell → Option String
  | .num q => some (toString q)
  | .str s => some s
  | .na => none

/-- Number of distinct non-missing values of a column, pandas nunique with
dropna=True. -/
def Column.nunique (c : Column) : Nat :=
  ((c.cells.filter (fun x => x ≠ Cell.na)).dedup).length

/-- Datetime heuristic of _detect_column_types: take the first 20 non-missing
values rendered as strings, parse each with the date parser, and require at
least max 1 (min 5 (sample_size / 2)) successful parses. The pandas
to_datetime parser is the explicit oracle `parse`. -/
def datetimeHeuristic (parse : String → Bool) (c : Column) : Bool :=
  let sample := (c.cells.filterMap Cell.render).take 20
  let parsedOk := (sample.filter parse).length
  decide (max 1 (min 5 (sample.length / 2)) ≤ parsedOk)

/-- Output record of the schema profiler. -/
structure ColumnTypes where
  numeric : List String
  datetime : List String
  categorical : List String
deriving DecidableEq

/-- Embedding of _detect_column_types from prompt_engine.py: numeric columns by
dtype, datetime columns by dtype or by the parsing heuristic, categorical
columns among the remaining ones with at most 50 distinct non-missing values. -/
def detect_column_types (parse : String → Bool) (df : DataFrame) : ColumnTypes :=
  let cols := df.colList
  let numeric := (cols.filter (fun c => c.dtype = Dtype.numeric)).map Column.name
  let datetimeCols := (cols.filter (fun c =>
      c.dtype = Dtype.datetime64 ∨ datetimeHeuristic parse c = true)).map Column.name
  let categorical := (cols.filter (fun c =>
      ¬ (numeric ++ datetimeCols).contains c.name ∧ c.nunique ≤ 50)).map Column.name
  ⟨numeric, datetimeCols, categorical⟩

/-- Single-quote character, written by code point to keep code strings plain. -/
def quoteChar : Char := Char.ofNat 39

/-- Double-quote character. -/
def dquoteChar : Char := Char.ofNat 34

/-- Backslash character. -/
def backslashChar : Char := Char.ofNat 92

/-- String consisting of one single-quote character. -/
def quoteStr : String := String.mk [quoteChar]

/-- Wrap a column name in single quotes, as the suggestion texts do. -/
def quoted (s : String) : String := quoteStr ++ s ++ quoteStr

/-- The always-first dataset summary prompt. -/
def summaryPrompt : String :=
  "Summarize the dataset in 5 bullet points (rows, columns, missing values, numeric columns, top categorical)."

/-- Prompt suggesting top value counts of a categorical column. -/
def topCountsPrompt (col : String) : String :=
  "Show the top 10 counts for the categorical column " ++ quoted col ++ "."

/-- Prompt suggesting summary statistics of the numeric columns. -/
def statsPrompt : String :=
  "Show summary statistics (count, mean, std, min, 25%, 50%, 75%, max) for numeric columns."

/-- Prompt suggesting a histogram of a numeric column. -/
def histogramPrompt (col : String) : String :=
  "Create a histogram of the numeric column " ++ quoted col ++ "."

/-- Prompt suggesting a scatter plot of the first two numeric columns. -/
def scatterPrompt (x y : String) : String :=
  "Create a scatter plot comparing " ++ quoted x ++ " (x) vs " ++ quoted y ++ " (y)."

/-- Prompt suggesting the ten largest rows of a numeric column. -/
def topSortedPrompt (col : String) : String :=
  "Show the top 10 rows sorted by " ++ quoted col ++ " descending."

/-- Prompt suggesting a monthly sum time series. -/
def monthlySumPrompt (ag dcol : String) : String :=
  "Create a time series of monthly sum of " ++ quoted ag ++ " using the datetime column " ++ quoted dcol ++ "."

/-- Prompt suggesting monthly row counts. -/
def countsPerMonthPrompt (dcol : String) : String :=
  "Show counts per month using the datetime column " ++ quoted dcol ++ "."

/-- Prompt suggesting a correlation heatmap. -/
def corrPrompt : String :=
  "Show the correlation matrix heatmap for numeric columns."

/-- Prompt suggesting anomaly detection by z-score. -/
def anomalyPrompt : String :=
  "Find rows that look like anomalies using z-score > 3 on numeric columns and show top 20."

/-- Suggestion list of suggest_prompts before the final truncation, built in
the source order: summary, categorical, numeric block, datetime block,
correlation, anomalies. -/
def suggest_base (parse : String → Bool) (df : DataFrame) : List String :=
  let types := detect_column_types parse df
  let numeric := types.numeric
  let datetimeCols := types.datetime
  let categorical := types.categorical
  let s1 := [summaryPrompt]
  let s2 := s1 ++ (match categorical with
    | [] => []
    | col :: _ => [topCountsPrompt col])
  let s3 := s2 ++ (match numeric with
    | [] => []
    | col :: rest =>
      [statsPrompt, histogramPrompt col] ++
      (match rest with
        | [] => []
        | col2 :: _ => [scatterPrompt col col2]) ++
      [topSortedPrompt col])
  let s4 := s3 ++ (match datetimeCols with
    | [] => []
    | dcol :: _ =>
      match numeric with
      | ag :: _ => [monthlySumPrompt ag dcol]
      | [] => [countsPerMonthPrompt dcol])
  let s5 := s4 ++ (if 2 ≤ numeric.length then [corrPrompt] else [])
  s5 ++ [anomalyPrompt]

/-- Embedding of suggest_prompts from prompt_engine.py: the ordered suggestion
list truncated to max_suggestions entries. -/
def suggest_prompts (parse : String → Bool) (df : DataFrame)
    (max_suggestions : Nat := 8) : List String :=
  (suggest_base parse df).take max_suggestions

/-- Whitespace test of the python strip method, restricted to the ASCII
whitespace characters. -/
def isPydSpace (c : Char) : Bool :=
  c = ' ' ∨ c = Char.ofNat 9 ∨ c = Char.ofNat 10 ∨ c = Char.ofNat 13 ∨
    c = Char.ofNat 11 ∨ c = Char.ofNat 12

/-- Strip leading and trailing whitespace from a character list. -/
def trimChars (l : List Char) : List Char :=
  ((l.dropWhile isPydSpace).reverse.dropWhile isPydSpace).reverse

/-- ASCII lowercasing of one character, the effect of the python lower method
on the prompt alphabet. -/
def lowerChar (c : Char) : Char :=
  if 65 ≤ c.toNat ∧ c.toNat ≤ 90 then Char.ofNat (c.toNat + 32) else c

/-- Prompt normalization of prompt_to_code: strip, then lowercase. -/
def normPrompt (s : String) : String :=
  String.mk ((trimChars s.data).map lowerChar)

/-- Substring containment, the python in operator on strings. -/
def strContains (hay pat : String) : Bool :=
  (List.range (hay.data.length + 1)).any (fun i => pat.data.isPrefixOf (hay.data.drop i))

/-- Prefix test, the python startswith method. -/
def strStarts (s pre : String) : Bool :=
  pre.data.isPrefixOf s.data

/-- Strip an expected literal from the front of a character list, or fail. -/
def stripLit : List Char → List Char → Option (List Char)
  | [], s => some s
  | _ :: _, [] => none
  | a :: as, b :: bs => if a = b then stripLit as bs else none

/-- Parse a single-quoted nonempty token at the current position: an opening
quote, one or more non-quote characters, and a closing quote. Returns the
token and the remainder after the closing quote. -/
def quotedAt : List Char → Option (String × List Char)
  | [] => none
  | c :: rest =>
    if c = quoteChar then
      match rest.dropWhile (fun x => x ≠ quoteChar) with
      | _ :: after =>
        match rest.takeWhile (fun x => x ≠ quoteChar) with
        | [] => none
        | t :: ts => some (String.mk (t :: ts), after)
      | [] => none
    else none

/-- Leftmost match of the regex consisting of a quoted nonempty token, used
with the single or the double quote as separator. -/
def firstTokenBetween (sep : Char) : List Char → Option String
  | [] => none
  | c :: rest =>
    if c = sep ∧ rest.takeWhile (fun x => x ≠ sep) ≠ [] ∧
        rest.dropWhile (fun x => x ≠ sep) ≠ [] then
      some (String.mk (rest.takeWhile (fun x => x ≠ sep)))
    else firstTokenBetween sep rest

/-- First single-quoted token of a string, the search for the quoted-name
regex of the source. -/
def firstQuoted (s : String) : Option String :=
  firstTokenBetween quoteChar s.data

/-- First double-quoted token of a string. -/
def firstDoubleQuoted (s : String) : Option String :=
  firstTokenBetween dquoteChar s.data

/-- Leftmost match of a literal followed by a single-quoted nonempty token,
returning the token. Used for the sorted-by and datetime-column regexes. -/
def litThenQuoted (lit : List Char) : List Char → Option String
  | [] => none
  | c :: rest =>
    match (stripLit lit (c :: rest)).bind (fun a => (quotedAt a).map Prod.fst) with
    | some col => some col
    | none => litThenQuoted lit rest

/-- Leftmost match of the monthly-sum regex: the literal sum-of, a quoted
aggregation column, the literal using-the-datetime-column, and a quoted
datetime column. -/
def monthlySumPat : List Char → Option (String × String)
  | [] => none
  | c :: rest =>
    match (do
      let a1 ← stripLit ("sum of ").data (c :: rest)
      let p1 ← quotedAt a1
      let a2 ← stripLit (" using the datetime column ").data p1.2
      let p2 ← quotedAt a2
      pure (p1.1, p2.1) : Option (String × String)) with
    | some r => some r
    | none => monthlySumPat rest

/-- Literal text the scatter regex demands between the two quoted tokens. The
source regex is a raw string whose doubled backslashes match literal
backslash characters, so the pattern is quote, token, quote, space,
backslash, x, backslash, space, v, s, space, quote, token, quote, space,
backslash, y, backslash. -/
def scatterMidLit : List Char := [' ', backslashChar, 'x', backslashChar, ' ', 'v', 's', ' ']

/-- Trailing literal of the scatter regex. -/
def scatterEndLit : List Char := [' ', backslashChar, 'y', backslashChar]

/-- Second capture group of the scatter regex: the group written around the x
between the literal backslashes, so it always captures the two characters x
and backslash. -/
def scatterGroupTwo : String := String.mk ['x', backslashChar]

/-- Leftmost match of the scatter regex of the source; on success the code
uses capture groups one and two, giving the first quoted token and the
constant x-backslash text. -/
def scatterPat : List Char → Option (String × String)
  | [] => none
  | c :: rest =>
    match (do
      let p1 ← quotedAt (c :: rest)
      let a2 ← stripLit scatterMidLit p1.2
      let p2 ← quotedAt a2
      let _ ← stripLit scatterEndLit p2.2
      pure (p1.1, scatterGroupTwo) : Option (String × String)) with
    | some r => some r
    | none => scatterPat rest

/-- Dedented code string of the dataset summary template. -/
def summaryCode : String :=
  "\n# Simple dataset summary in text\n" ++
  "info = []\n" ++
  "info.append(f\"Rows: {len(df)}, Columns: {len(df.columns)}\")\n" ++
  "info.append(\"Column types: \" + \", \".join([f\"{c}:{str(df[c].dtype)[:10]}\" for c in df.columns[:10]]))\n" ++
  "miss = df.isnull().sum().sort_values(ascending=False).head(10)\n" ++
  "if (miss > 0).any():\n" ++
  "    info.append(\"Top missing: \" + \", \".join([f\"{idx}:{val}\" for idx, val in miss.items() if val > 0]))\n" ++
  "numeric_cols = df.select_dtypes(include=[\"number\"]).columns.tolist()\n" ++
  "info.append(f\"Numeric columns count: {len(numeric_cols)}\")\n" ++
  "result = \"\\n\".join([\"- \" + i for i in info])\n"

/-- Dedented code string of the categorical top-counts template. -/
def topCountsCode (col : String) : String :=
  "\n# top 10 counts for " ++ quoted col ++ "\n" ++
  "result = df[" ++ quoted col ++ "].value_counts(dropna=False).head(10).reset_index()\n" ++
  "result.columns = [" ++ quoted "value" ++ ", " ++ quoted "count" ++ "]\n"

/-- Dedented code string of the summary statistics template. -/
def statsCode : String :=
  "\nresult = df.select_dtypes(include=[\"number\"]).describe().T\n"

/-- Dedented code string of the histogram template. -/
def histogramCode (col : String) : String :=
  "\n# histogram for " ++ quoted col ++ "\n" ++
  "plt.figure(figsize=(6, 4))\n" ++
  "df[" ++ quoted col ++ "].dropna().astype(float).hist(bins=30)\n" ++
  "plt.title(" ++ quoted ("Histogram of " ++ col) ++ ")\n" ++
  "plt.xlabel(" ++ quoted col ++ ")\n" ++
  "plt.ylabel(" ++ quoted "count" ++ ")\n" ++
  "result_img_path = None\n"

/-- Dedented code string of the scatter plot template. -/
def scatterCode (xcol ycol : String) : String :=
  "\nplt.figure(figsize=(6, 4))\n" ++
  "df.plot.scatter(x=" ++ quoted xcol ++ ", y=" ++ quoted ycol ++ ")\n" ++
  "plt.title(" ++ quoted (ycol ++ " vs " ++ xcol) ++ ")\n" ++
  "result_img_path = None\n"

/-- Dedented code string of the top sorted rows template. -/
def topSortedCode (col : String) : String :=
  "\nresult = df.sort_values(" ++ quoted col ++ ", ascending=False).head(10).reset_index(drop=True)\n"

/-- Dedented code string of the monthly sum template. -/
def monthlySumCode (ag dcol : String) : String :=
  "\ntmp = df.copy()\n" ++
  "tmp[" ++ quoted dcol ++ "] = pd.to_datetime(tmp[" ++ quoted dcol ++ "], errors=" ++ quoted "coerce" ++ ")\n" ++
  "res = tmp.dropna(subset=[" ++ quoted dcol ++ "])\n" ++
  "res = res.set_index(" ++ quoted dcol ++ ").resample(" ++ quoted "M" ++ ")[" ++ quoted ag ++ "].sum().reset_index()\n" ++
  "result = res\n"

/-- Dedented code string of the monthly counts template. -/
def countsPerMonthCode (dcol : String) : String :=
  "\ntmp = df.copy()\n" ++
  "tmp[" ++ quoted dcol ++ "] = pd.to_datetime(tmp[" ++ quoted dcol ++ "], errors=" ++ quoted "coerce" ++ ")\n" ++
  "res = (\n" ++
  "    tmp.dropna(subset=[" ++ quoted dcol ++ "])\n" ++
  "    .set_index(" ++ quoted dcol ++ ")\n" ++
  "    .resample(" ++ quoted "M" ++ ")\n" ++
  "    .size()\n" ++
  "    .reset_index(name=" ++ quoted "count" ++ ")\n" ++
  ")\n" ++
  "result = res\n"

/-- Dedented code string of the correlation heatmap template. -/
def corrCode : String :=
  "\ncorr = df.select_dtypes(include=[\"number\"]).corr()\n" ++
  "plt.figure(figsize=(6, 5))\n" ++
  "plt.imshow(corr, cmap=\"viridis\", aspect=\"auto\")\n" ++
  "plt.colorbar()\n" ++
  "plt.xticks(range(len(corr)), corr.columns, rotation=90)\n" ++
  "plt.yticks(range(len(corr)), corr.columns)\n" ++
  "plt.title(\"Correlation matrix\")\n" ++
  "result_img_path = None\n"

/-- Dedented code string of the anomaly detection template. -/
def anomalyCode : String :=
  "\nfrom scipy " ++ "import stats\n" ++
  "num = df.select_dtypes(include=[\"number\"]).dropna()\n" ++
  "if num.shape[1] == 0:\n" ++
  "    result = pd.DataFrame()\n" ++
  "else:\n" ++
  "    z = np.abs(stats.zscore(num.select_dtypes(include=[\"number\"])))\n" ++
  "    mask = (z > 3).any(axis=1)\n" ++
  "    result = df.loc[mask].head(20).reset_index(drop=True)\n"

/-- Template 1 of prompt_to_code: the dataset summary. -/
def tmplSummary (p : String) : Option String :=
  if strStarts p ("summarize the dataset") then some summaryCode else none

/-- Template 2: top counts of a categorical column; the quoted column name is
extracted from the original prompt, trying single then double quotes. -/
def tmplTopCounts (p prompt : String) : Option String :=
  if strContains p ("top 10 counts for the categorical column") ∨
      (strContains p ("top 10 counts") ∧ strContains p quoteStr) then
    ((firstQuoted prompt).orElse (fun _ => firstDoubleQuoted prompt)).map topCountsCode
  else none

/-- Template 3: summary statistics of numeric columns. -/
def tmplStats (p : String) : Option String :=
  if strContains p ("summary statistics") ∨ strContains p ("describe") then
    some statsCode
  else none

/-- Template 4: histogram of a quoted numeric column. -/
def tmplHistogram (p prompt : String) : Option String :=
  if strStarts p ("create a histogram of the numeric column") ∨
      strContains p ("histogram of the numeric column") then
    (firstQuoted prompt).map histogramCode
  else none

/-- Template 5: scatter plot; the extraction uses the backslash-demanding
regex of the source, and its second capture group as the y column. -/
def tmplScatter (p prompt : String) : Option String :=
  if strContains p ("scatter plot comparing") ∧ strContains p ("vs") then
    (scatterPat prompt.data).map (fun r => scatterCode r.1 r.2)
  else none

/-- Template 6: top 10 rows sorted by a quoted column. -/
def tmplTopSorted (p prompt : String) : Option String :=
  if strStarts p ("show the top 10 rows sorted by") then
    (litThenQuoted ("by ").data prompt.data).map topSortedCode
  else none

/-- Template 7: monthly sum over a datetime column. -/
def tmplMonthlySum (p prompt : String) : Option String :=
  if strContains p ("monthly sum") ∧ strContains p ("using the datetime column") then
    (monthlySumPat prompt.data).map (fun r => monthlySumCode r.1 r.2)
  else none

/-- Template 8: monthly counts over a datetime column. -/
def tmplCountsPerMonth (p prompt : String) : Option String :=
  if strContains p ("counts per month using the datetime column") then
    (litThenQuoted ("datetime column ").data prompt.data).map countsPerMonthCode
  else none

/-- Template 9: correlation heatmap. -/
def tmplCorr (p : String) : Option String :=
  if strContains p ("correlation matrix heatmap") ∨ strContains p ("correlation heatmap") then
    some corrCode
  else none

/-- Template 10: anomaly detection by z-score. -/
def tmplAnomaly (p : String) : Option String :=
  if strContains p ("anomalies") ∧ strContains p ("z-score") then
    some anomalyCode
  else none

/-- The fixed ordered template list of prompt_to_code. Each entry receives the
normalized prompt and the original prompt and yields a code string when both
its recognizer and its parameter extraction succeed. -/
def templates : List (String → String → Option String) :=
  [fun p _ => tmplSummary p,
   fun p o => tmplTopCounts p o,
   fun p _ => tmplStats p,
   fun p o => tmplHistogram p o,
   fun p o => tmplScatter p o,
   fun p o => tmplTopSorted p o,
   fun p o => tmplMonthlySum p o,
   fun p o => tmplCountsPerMonth p o,
   fun p _ => tmplCorr p,
   fun p _ => tmplAnomaly p]

/-- Run an ordered template list on a normalized and an original prompt: the
first template that yields code wins; a template that fails, whether by
recognizer miss or failed extraction, is skipped. -/
def runTemplates : List (String → String → Option String) → String → String → Option String
  | [], _, _ => none
  | t :: rest, p, o =>
    match t p o with
    | some c => some c
    | none => runTemplates rest p o

/-- Embedding of prompt_to_code from prompt_engine.py: normalize the prompt
and run the ordered template chain; the dataframe argument is received, as in
the source, but never inspected. -/
def prompt_to_code (prompt : String) (df : DataFrame) : Option String :=
  runTemplates templates (normPrompt prompt) prompt

/-- A value bound to the result variable by executed code: either a pandas
dataframe or any other value together with its rendering by str. -/
inductive PyResVal where
  | frame (df : DataFrame)
  | other (rendered : String)
deriving DecidableEq

/-- Observable effect of one exec call of the sandbox on its local namespace
and on the process-wide channels. A field value none means the corresponding
variable was never bound. raised carries the exception message when the code
raised; openedFigs is the number of matplotlib figures open right after the
exec call; printed is everything the code wrote to standard output; tmpPath is
the fresh temporary file name the sandbox would save a figure to. -/
structure ExecEffect where
  raised : Option String
  imgPathVar : Option (Option String)
  openedFigs : Nat
  resultVar : Option PyResVal
  printed : String
  tmpPath : String
deriving DecidableEq

/-- Classified outcome of the sandbox, the tagged union of the three result
kinds of run_code. -/
inductive RunOutcome where
  | image (path : String)
  | table (df : DataFrame)
  | text (output : String)
deriving DecidableEq

/-- Process-wide state the sandbox touches: the current standard output
handle and the number of open matplotlib figures. -/
structure SysState where
  stdoutHandle : Nat
  openFigs : Nat
deriving DecidableEq

/-- Python truthiness of the chart-path binding: a bound, non-None, nonempty
string is truthy and yields the path. -/
def truthyPath : Option (Option String) → Option String
  | some (some s) => if s = "" then none else some s
  | _ => none

/-- The python strip of the captured standard output text. -/
def pyStrip (s : String) : String :=
  String.mk (trimChars s.data)

/-- Fallback text of the sandbox when no result channel fired. -/
def noResultText : String := "Execution finished. No result produced."

/-- Body of run_code between the try and the except: either the exception, or
the classified outcome together with the number of figures left open. Branch
order as in the source: explicit chart path, open figures saved and closed,
result variable, captured output, fallback text. -/
def run_code_body (eff : ExecEffect) : Except String (RunOutcome × Nat) :=
  match eff.raised with
  | some msg => Except.error msg
  | none =>
    match truthyPath eff.imgPathVar with
    | some path => Except.ok (RunOutcome.image path, eff.openedFigs)
    | none =>
      if eff.openedFigs ≠ 0 then
        Except.ok (RunOutcome.image eff.tmpPath, 0)
      else
        match eff.resultVar with
        | some (PyResVal.frame d) => Except.ok (RunOutcome.table d, eff.openedFigs)
        | some (PyResVal.other s) => Except.ok (RunOutcome.text s, eff.openedFigs)
        | none =>
          if pyStrip eff.printed ≠ "" then
            Except.ok (RunOutcome.text (pyStrip eff.printed), eff.openedFigs)
          else
            Except.ok (RunOutcome.text noResultText, eff.openedFigs)

/-- Embedding of run_code from code_runner.py: save the standard output
handle, redirect it to the capture buffer for the duration of the execution,
classify the outcome, convert any exception into the execution-error text,
and restore the saved handle on every exit path, as the finally clause does.
The returned state carries the restored handle and the figures left open. -/
def run_code (st : SysState) (bufHandle : Nat) (eff : ExecEffect) : RunOutcome × SysState :=
  let old := st.stdoutHandle
  let during : SysState := ⟨bufHandle, eff.openedFigs⟩
  match run_code_body eff with
  | Except.ok (r, figs) => (r, ⟨old, figs⟩)
  | Except.error msg => (RunOutcome.text ("Execution error: " ++ msg), ⟨old, during.openFigs⟩)

/-- Numeric content of a cell, with the default zero used only under the
hypothesis that the inspected cells are numeric. -/
def cellRat : Cell → ℚ
  | Cell.num q => q
  | _ => 0

/-- Positions of the numeric columns of a dataframe. -/
def numericIdxs (df : DataFrame) : List Nat :=
  (df.dtypes.enum.filter (fun p => p.2 = Dtype.numeric)).map Prod.fst

/-- Values of column j read as rationals. -/
def colVals (df : DataFrame) (j : Nat) : List ℚ :=
  df.rows.map (fun r => cellRat (r.getD j Cell.na))

/-- Mean of a list of rationals; empty lists give zero by rational division
by zero. -/
def qMean (l : List ℚ) : ℚ := l.sum / l.length

/-- Population variance of a list of rationals, the square of the ddof zero
standard deviation that scipy zscore divides by. -/
def qVar (l : List ℚ) : ℚ :=
  ((l.map (fun x => (x - qMean l) ^ 2)).sum) / l.length

/-- Squared z-score of a value against a column, written without square
roots: deviation squared over variance. A zero variance gives zero, matching
the not-a-number comparison of the source always being false. -/
def zSq (l : List ℚ) (x : ℚ) : ℚ := (x - qMean l) ^ 2 / qVar l

/-- Row mask of the synthesized anomaly code: the row is flagged when some
numeric column puts its squared z-score above nine, the square of the
threshold three. -/
def rowFlagged (df : DataFrame) (r : List Cell) : Bool :=
  (numericIdxs df).any (fun j =>
    decide (9 < zSq (colVals df j) (cellRat (r.getD j Cell.na))))

/-- The empty dataframe the anomaly code returns when no column is numeric. -/
def emptyFrame : DataFrame := ⟨[], [], [], []⟩

/-- Test for a numeric cell. -/
def Cell.isNum : Cell → Bool
  | Cell.num _ => true
  | _ => false

/-- A row survives the dropna of the anomaly code when every numeric-column
cell of the row is a number; a missing cell in any numeric column drops the
whole row from the numeric sub-frame. -/
def rowComplete (df : DataFrame) (r : List Cell) : Bool :=
  (numericIdxs df).all (fun j => (r.getD j Cell.na).isNum)

/-- Values of numeric column j over the rows surviving dropna; the column
statistics of the zscore call are computed over exactly these values. -/
def colValsDropped (df : DataFrame) (j : Nat) : List ℚ :=
  (df.rows.filter (fun r => rowComplete df r)).map (fun r => cellRat (r.getD j Cell.na))

/-- Row mask entry of the synthesized anomaly code, with the column mean and
variance taken over the dropna-surviving rows as the code computes them. -/
def rowFlaggedDropped (df : DataFrame) (r : List Cell) : Bool :=
  (numericIdxs df).any (fun j =>
    decide (9 < zSq (colValsDropped df j) (cellRat (r.getD j Cell.na))))

/-- Message of the pandas IndexError raised when a boolean mask shorter than
the frame is used; the exact wording is modelled, the raising is the point. -/
def maskLengthError : String := "Boolean index has wrong length"

/-- Embedding of one run of the synthesized anomaly-detection code: with no
numeric columns the empty table; otherwise, when dropna removed any row, the
boolean mask built over the numeric sub-frame is shorter than the dataframe
and the loc indexing raises; otherwise the mask applies positionally and the
flagged rows are kept in order, truncated to 20, with a reset index. -/
def anomalyRun (df : DataFrame) : Except String DataFrame :=
  if (numericIdxs df).length = 0 then Except.ok emptyFrame
  else if (df.rows.filter (fun r => rowComplete df r)).length ≠ df.rows.length then
    Except.error maskLengthError
  else
    let kept := ((df.index.zip df.rows).filter (fun p => rowFlaggedDropped df p.2)).take 20
    Except.ok ⟨df.colNames, df.dtypes, List.range kept.length, kept.map Prod.snd⟩

/-- Position of the first column with the given name. -/
def DataFrame.colIdx (df : DataFrame) (col : String) : Nat :=
  df.colNames.indexOf col

/-- Sort key of a row for sort_values on the named column. -/
def sortKey (df : DataFrame) (col : String) (r : List Cell) : ℚ :=
  cellRat (r.getD (df.colIdx col) Cell.na)

/-- Descending comparison used by the embedded sort_values. -/
def descLe (df : DataFrame) (col : String) (a b : Nat × List Cell) : Bool :=
  decide (sortKey df col b.2 ≤ sortKey df col a.2)

/-- Embedding of sort_values with ascending false: rows with their index
labels, ordered by descending key. -/
def DataFrame.sortValuesDesc (df : DataFrame) (col : String) : DataFrame :=
  let sorted := (df.index.zip df.rows).mergeSort (descLe df col)
  ⟨df.colNames, df.dtypes, sorted.map Prod.fst, sorted.map Prod.snd⟩

/-- Embedding of head: the first n rows with their index labels. -/
def DataFrame.headN (df : DataFrame) (n : Nat) : DataFrame :=
  ⟨df.colNames, df.dtypes, df.index.take n, df.rows.take n⟩

/-- Embedding of reset_index with drop=True: a fresh zero-based index. -/
def DataFrame.resetIndex (df : DataFrame) : DataFrame :=
  ⟨df.colNames, df.dtypes, List.range df.rows.length, df.rows⟩

/-- Semantics of the synthesized top-sorted code: sort descending by the
named column, keep the first ten rows, reset the index. -/
def topSortedSem (col : String) (df : DataFrame) : DataFrame :=
  ((df.sortValuesDesc col).headN 10).resetIndex

/-- Claim-side row flag of the anomaly claim: some numeric column has the
squared deviation of this row beyond nine times the column variance, the
square-root-free form of an absolute z-score above three. -/
def rowOutlier (df : DataFrame) (r : List Cell) : Bool :=
  (numericIdxs df).any (fun j =>
    decide (9 * qVar (colVals df j) < (cellRat (r.getD j Cell.na) - qMean (colVals df j)) ^ 2))

/-- Result classification exactly as claim C3 words it, with branch four
guarded by the raw captured output being nonempty. -/
def claimedClassification (eff : ExecEffect) : RunOutcome :=
  match truthyPath eff.imgPathVar with
  | some path => RunOutcome.image path
  | none =>
    if eff.openedFigs ≠ 0 then RunOutcome.image eff.tmpPath
    else
      match eff.resultVar with
      | some (PyResVal.frame d) => RunOutcome.table d
      | some (PyResVal.other s) => RunOutcome.text s
      | none =>
        if eff.printed ≠ "" then RunOutcome.text (pyStrip eff.printed)
        else RunOutcome.text noResultText

/-- Result classification with branch four guarded by the trimmed captured
output being nonempty, which is what the code tests. -/
def codeClassification (eff : ExecEffect) : RunOutcome :=
  match truthyPath eff.imgPathVar with
  | some path => RunOutcome.image path
  | none =>
    if eff.openedFigs ≠ 0 then RunOutcome.image eff.tmpPath
    else
      match eff.resultVar with
      | some (PyResVal.frame d) => RunOutcome.table d
      | some (PyResVal.other s) => RunOutcome.text s
      | none =>
        if pyStrip eff.printed ≠ "" then RunOutcome.text (pyStrip eff.printed)
        else RunOutcome.text noResultText

/-- Number of open figures run_code leaves behind on its non-raising path:
zero after the save-figure branch, otherwise whatever the execution left. -/
def figsAfter (eff : ExecEffect) : Nat :=
  if truthyPath eff.imgPathVar = none ∧ eff.openedFigs ≠ 0 then 0 else eff.openedFigs

/-- Claim C2 as stated: the three category sets are pairwise disjoint and
their union is contained in the column names, for every dataset and every
date parser. -/
def claim2Statement : Prop :=
  ∀ (parse : String → Bool) (df : DataFrame),
    (detect_column_types parse df).numeric.Disjoint (detect_column_types parse df).datetime ∧
    (detect_column_types parse df).numeric.Disjoint (detect_column_types parse df).categorical ∧
    (detect_column_types parse df).datetime.Disjoint (detect_column_types parse df).categorical ∧
    ∀ x, x ∈ (detect_column_types parse df).numeric ++ (detect_column_types parse df).datetime ++
        (detect_column_types parse df).categorical → x ∈ df.colNames

/-- Claim C3 as stated: on every non-raising execution the outcome is the
claimed five-branch classification. -/
def claim3Statement : Prop :=
  ∀ (st : SysState) (bufHandle : Nat) (eff : ExecEffect), eff.raised = none →
    (run_code st bufHandle eff).1 = claimedClassification eff

/-- Claim C5 as stated: against every dataset the anomaly code yields a
table, the empty one when no column is numeric, and otherwise the first
twenty rows flagged by an absolute z-score above three in some numeric
column, with a reset index. -/
def claim5Statement : Prop :=
  ∀ df : DataFrame,
    ((numericIdxs df).length = 0 → anomalyRun df = Except.ok emptyFrame) ∧
    ((numericIdxs df).length ≠ 0 →
      anomalyRun df = Except.ok ⟨df.colNames, df.dtypes,
        List.range ((((df.index.zip df.rows).filter (fun p => rowOutlier df p.2)).take 20).length),
        (((df.index.zip df.rows).filter (fun p => rowOutlier df p.2)).take 20).map Prod.snd⟩)

/-- Claim C6 as stated: for every dataset and every bound, the suggestions
are deterministic, number between one and the bound, and start with the
summary prompt. -/
def claim6Statement : Prop :=
  ∀ (parse : String → Bool) (df : DataFrame) (m : Nat),
    suggest_prompts parse df m = suggest_prompts parse df m ∧
    1 ≤ (suggest_prompts parse df m).length ∧
    (suggest_prompts parse df m).length ≤ m ∧
    (suggest_prompts parse df m).head? = some summaryPrompt

/-- Claim C7 as stated: every execution whose outcome is an image leaves no
open figures behind. -/
def claim7Statement : Prop :=
  ∀ (st : SysState) (bufHandle : Nat) (eff : ExecEffect) (path : String),
    (run_code st bufHandle eff).1 = RunOutcome.image path →
    (run_code st bufHandle eff).2.openFigs = 0

/-- Date parser that accepts nothing, for datasets without datetime columns. -/
def parseNever : String → Bool := fun _ => false

/-- Date parser accepting four-digit strings, the way pandas to_datetime
parses a bare year; rendered year-valued numeric cells parse as dates. -/
def parseYear : String → Bool := fun s =>
  decide (s.length = 4) && s.data.all Char.isDigit

/-- Dataset with one numeric column of year-like values. -/
def dfYear : DataFrame :=
  ⟨["year"], [Dtype.numeric], [0, 1], [[Cell.num 2021], [Cell.num 2022]]⟩

/-- Dataset with two plainly named numeric columns. -/
def dfNum2 : DataFrame :=
  ⟨["a", "b"], [Dtype.numeric, Dtype.numeric], [0, 1],
    [[Cell.num 1, Cell.num 2], [Cell.num 3, Cell.num 4]]⟩

/-- Dataset with one numeric column named amount. -/
def dfAmount : DataFrame :=
  ⟨["amount"], [Dtype.numeric], [0, 1, 2], [[Cell.num 5], [Cell.num 2], [Cell.num 9]]⟩

/-- Dataset of twelve rows with one numeric column holding eleven zeros and
one extreme value, whose z-score exceeds three. -/
def dfOutlier : DataFrame :=
  ⟨["v"], [Dtype.numeric], [0, 1, 2, 3, 4, 5, 6, 7, 8, 9, 10, 11],
    [[Cell.num 0], [Cell.num 0], [Cell.num 0], [Cell.num 0], [Cell.num 0], [Cell.num 0],
     [Cell.num 0], [Cell.num 0], [Cell.num 0], [Cell.num 0], [Cell.num 0], [Cell.num 120]]⟩

/-- Dataset with one numeric column in which one value is missing, so the
dropna of the anomaly code removes a row. -/
def dfMissing : DataFrame :=
  ⟨["v"], [Dtype.numeric], [0, 1], [[Cell.num 0], [Cell.na]]⟩

/-- Effect of an execution that raised with a given message. -/
def effRaise : ExecEffect := ⟨some ("boom"), none, 0, none, "", "tmp.png"⟩

/-- Effect of an execution that printed only whitespace and bound nothing. -/
def effWhite : ExecEffect := ⟨none, none, 0, none, " ", "tmp.png"⟩

/-- Effect of an execution that bound the chart path to a nonempty value
while also leaving one figure open. -/
def effLeak : ExecEffect := ⟨none, some (some ("chart.png")), 1, none, "", "tmp.png"⟩

/-- Effect of an execution that only opened two figures. -/
def effFig : ExecEffect := ⟨none, none, 2, none, "", "fig.png"⟩

/-- A prompt that satisfies the recognizer of the categorical top-counts
template but carries an empty quoted name, so extraction fails. -/
def promptEmptyCol : String := topCountsPrompt ("")

/-- A free-form prompt no template recognizes. -/
def promptJoke : String := "tell me a joke about the data"

theorem runTemplates_eq_none {ts : List (String → String → Option String)} {p o : String}
    (h : ∀ t ∈ ts, t p o = none) : runTemplates ts p o = none := by
  induction ts with
  | nil => rfl
  | cons t rest ih =>
    have ht := h t (List.mem_cons_self t rest)
    simp only [runTemplates, ht]
    exact ih (fun s hs => h s (List.mem_cons_of_mem t hs))

theorem runTemplates_cons_none {t : String → String → Option String}
    {rest : List (String → String → Option String)} {p o : String}
    (h : t p o = none) : runTemplates (t :: rest) p o = runTemplates rest p o := by
  simp only [runTemplates, h]

theorem run_code_body_ok (eff : ExecEffect) (h : eff.raised = none) :
    run_code_body eff = Except.ok (codeClassification eff, figsAfter eff) := by
  unfold run_code_body codeClassification figsAfter
  rw [h]
  cases htp : truthyPath eff.imgPathVar with
  | some path => simp [htp]
  | none =>
    by_cases hf : eff.openedFigs ≠ 0
    · simp [htp, hf]
    · cases hr : eff.resultVar with
      | none =>
        by_cases hp : pyStrip eff.printed ≠ "" <;> simp [htp, hf, hp]
      | some v => cases v <;> simp [htp, hf, hr]

theorem run_code_body_err (eff : ExecEffect) {msg : String} (h : eff.raised = some msg) :
    run_code_body eff = Except.error msg := by
  unfold run_code_body
  rw [h]

/-- C10: the translation is a function of the prompt text alone; the
dataframe argument of prompt_to_code is received but never inspected, so any
two datasets give identical results. -/
theorem claim10_translation_ignores_data (prompt : String) (df1 df2 : DataFrame) :
    prompt_to_code prompt df1 = prompt_to_code prompt df2 := rfl

/-- C4: run_code restores the standard output handle on every exit path and
converts any exception raised during execution into a text outcome carrying
the execution-error message, never propagating the failure. -/
theorem claim4_sandbox_error_handling (st : SysState) (bufHandle : Nat) (eff : ExecEffect) :
    (run_code st bufHandle eff).2.stdoutHandle = st.stdoutHandle ∧
    ∀ msg, eff.raised = some msg →
      (run_code st bufHandle eff).1 = RunOutcome.text ("Execution error: " ++ msg) := by
  constructor
  · unfold run_code
    cases hb : run_code_body eff with
    | ok p => obtain ⟨r, figs⟩ := p; rfl
    | error m => rfl
  · intro msg hm
    unfold run_code
    rw [run_code_body_err eff hm]

theorem claim4_sandbox_error_handling_witness :
    (run_code ⟨7, 2⟩ 9 effRaise).2.stdoutHandle = 7 ∧
    (run_code ⟨7, 2⟩ 9 effRaise).1 = RunOutcome.text ("Execution error: " ++ "boom") :=
  ⟨(claim4_sandbox_error_handling ⟨7, 2⟩ 9 effRaise).1,
   (claim4_sandbox_error_handling ⟨7, 2⟩ 9 effRaise).2 ("boom") rfl⟩

theorem claim3_counterexample : ¬ claim3Statement := fun h =>
  absurd (h ⟨0, 0⟩ 1 effWhite rfl) (by decide)

/-- C3 amended: on every non-raising execution the outcome follows the five
branches in the stated priority order, except that branch four fires on a
nonempty trimmed captured output rather than on a nonempty raw captured
output; whitespace-only output falls through to the fallback text. -/
theorem claim3_classification_priority (st : SysState) (bufHandle : Nat) (eff : ExecEffect)
    (h : eff.raised = none) :
    (run_code st bufHandle eff).1 = codeClassification eff := by
  unfold run_code
  rw [run_code_body_ok eff h]

theorem claim3_classification_priority_witness :
    (run_code ⟨0, 0⟩ 1 effWhite).1 = codeClassification effWhite :=
  claim3_classification_priority ⟨0, 0⟩ 1 effWhite rfl

theorem claim7_counterexample : ¬ claim7Statement := fun h =>
  absurd (h ⟨0, 5⟩ 1 effLeak ("chart.png") (by decide)) (by decide)

/-- C7 amended: figures are cleared exactly when the image outcome came from
the open-figure branch; when the executed code supplied a truthy explicit
chart path, run_code returns that image without closing figures. Under the
hypothesis that no truthy chart path was bound, an image outcome implies no
figure stays open. -/
theorem claim7_figures_cleared (st : SysState) (bufHandle : Nat) (eff : ExecEffect) (path : String)
    (himg : truthyPath eff.imgPathVar = none)
    (hout : (run_code st bufHandle eff).1 = RunOutcome.image path) :
    (run_code st bufHandle eff).2.openFigs = 0 := by
  cases hr : eff.raised with
  | some msg =>
    exfalso
    unfold run_code at hout
    rw [run_code_body_err eff hr] at hout
    exact RunOutcome.noConfusion hout
  | none =>
    unfold run_code at hout ⊢
    rw [run_code_body_ok eff hr] at hout ⊢
    simp only at hout ⊢
    by_cases hf : eff.openedFigs ≠ 0
    · unfold figsAfter
      simp [himg, hf]
    · exfalso
      unfold codeClassification at hout
      rw [himg] at hout
      simp only [hf, if_neg] at hout
      cases hrv : eff.resultVar with
      | some v =>
        rw [hrv] at hout
        cases v <;> exact RunOutcome.noConfusion hout
      | none =>
        rw [hrv] at hout
        by_cases hp : pyStrip eff.printed ≠ "" <;> simp [hp] at hout

theorem claim7_figures_cleared_witness :
    (run_code ⟨0, 9⟩ 1 effFig).2.openFigs = 0 :=
  claim7_figures_cleared ⟨0, 9⟩ 1 effFig ("fig.png") (by decide) (by decide)

theorem mem_of_mem_enum {α : Type} {l : List α} {p : Nat × α} (h : p ∈ l.enum) : p.2 ∈ l := by
  have := List.mem_map_of_mem Prod.snd h
  rwa [List.enum_map_snd] at this

theorem colList_name_mem {df : DataFrame} {c : Column} (h : c ∈ df.colList) :
    c.name ∈ df.colNames := by
  unfold DataFrame.colList at h
  obtain ⟨p, hp, hc⟩ := List.mem_map.mp h
  have h2 : p.2 ∈ df.colNames.zip df.dtypes := mem_of_mem_enum hp
  have h3 : p.2.1 ∈ df.colNames := (List.of_mem_zip (a := p.2.1) (b := p.2.2) (by simpa using h2)).1
  rw [← hc]
  exact h3

theorem claim2_counterexample : ¬ claim2Statement := by
  intro h
  have hd := (h parseYear dfYear).1
  exact hd (show ("year") ∈ (detect_column_types parseYear dfYear).numeric by decide)
    (show ("year") ∈ (detect_column_types parseYear dfYear).datetime by decide)

/-- C2 amended: the categorical set is disjoint from both the numeric and the
datetime set, and the union of the three sets is contained in the column
names; the numeric and datetime sets themselves may overlap, because the
datetime heuristic is also applied to numeric columns. -/
theorem claim2_partition (parse : String → Bool) (df : DataFrame) :
    (detect_column_types parse df).numeric.Disjoint (detect_column_types parse df).categorical ∧
    (detect_column_types parse df).datetime.Disjoint (detect_column_types parse df).categorical ∧
    ∀ x, x ∈ (detect_column_types parse df).numeric ++ (detect_column_types parse df).datetime ++
        (detect_column_types parse df).categorical → x ∈ df.colNames := by
  unfold detect_column_types
  simp only
  refine ⟨?_, ?_, ?_⟩
  · intro x hx hxc
    obtain ⟨c, hcf, hcn⟩ := List.mem_map.mp hxc
    have hpred := (List.mem_filter.mp hcf).2
    rw [decide_eq_true_iff] at hpred
    apply hpred.1
    rw [List.elem_iff, List.mem_append]
    left
    rw [hcn]
    exact hx
  · intro x hx hxc
    obtain ⟨c, hcf, hcn⟩ := List.mem_map.mp hxc
    have hpred := (List.mem_filter.mp hcf).2
    rw [decide_eq_true_iff] at hpred
    apply hpred.1
    rw [List.elem_iff, List.mem_append]
    right
    rw [hcn]
    exact hx
  · intro x hx
    rw [List.mem_append, List.mem_append] at hx
    rcases hx with (hx | hx) | hx <;>
    · obtain ⟨c, hcf, hcn⟩ := List.mem_map.mp hx
      rw [← hcn]
      exact colList_name_mem (List.mem_filter.mp hcf).1

theorem claim2_partition_witness :
    (detect_column_types parseYear dfYear).numeric.Disjoint
      (detect_column_types parseYear dfYear).categorical ∧
    (detect_column_types parseYear dfYear).datetime.Disjoint
      (detect_column_types parseYear dfYear).categorical ∧
    ∀ x, x ∈ (detect_column_types parseYear dfYear).numeric ++
        (detect_column_types parseYear dfYear).datetime ++
        (detect_column_types parseYear dfYear).categorical → x ∈ dfYear.colNames :=
  claim2_partition parseYear dfYear

theorem claim6_counterexample : ¬ claim6Statement := fun h =>
  absurd (h parseNever dfNum2 0).2.1 (by decide)

/-- C6 amended: for every dataset and every positive truncation bound the
suggestion list is deterministic, has between one and max_count entries, and
starts with the dataset-summary prompt; at the degenerate bound zero the
returned list is empty, so the lower bound needs the bound to be positive. -/
theorem claim6_suggest_contract (parse : String → Bool) (df : DataFrame) (m : Nat)
    (hm : 1 ≤ m) :
    suggest_prompts parse df m = suggest_prompts parse df m ∧
    1 ≤ (suggest_prompts parse df m).length ∧
    (suggest_prompts parse df m).length ≤ m ∧
    (suggest_prompts parse df m).head? = some summaryPrompt := by
  obtain ⟨tail, htail⟩ : ∃ tail, suggest_base parse df = summaryPrompt :: tail := ⟨_, rfl⟩
  unfold suggest_prompts
  rw [htail]
  cases m with
  | zero => exact absurd hm (by decide)
  | succ k =>
    rw [List.take_succ_cons]
    refine ⟨rfl, by simp, ?_, by simp⟩
    simp only [List.length_cons]
    have := List.length_take_le k tail
    omega

theorem claim6_suggest_contract_witness :
    suggest_prompts parseNever dfNum2 8 = suggest_prompts parseNever dfNum2 8 ∧
    1 ≤ (suggest_prompts parseNever dfNum2 8).length ∧
    (suggest_prompts parseNever dfNum2 8).length ≤ 8 ∧
    (suggest_prompts parseNever dfNum2 8).head? = some summaryPrompt :=
  claim6_suggest_contract parseNever dfNum2 8 (by decide)

/-- C8: a template whose recognizer fires but whose required parameter cannot
be extracted is treated as a non-match and matching continues with the
templates after it, and when every template fails the result is the no-match
value none rather than an error; shown for the categorical top-counts
template, whose quoted-name extraction can fail. -/
theorem claim8_extraction_failure_falls_through (prompt : String) (df : DataFrame)
    (h1 : tmplSummary (normPrompt prompt) = none)
    (h2 : strContains (normPrompt prompt) ("top 10 counts for the categorical column") = true)
    (hx : (firstQuoted prompt).orElse (fun _ => firstDoubleQuoted prompt) = none) :
    prompt_to_code prompt df = runTemplates (templates.drop 2) (normPrompt prompt) prompt ∧
    ((∀ t ∈ templates, t (normPrompt prompt) prompt = none) → prompt_to_code prompt df = none) := by
  constructor
  · have hc : tmplTopCounts (normPrompt prompt) prompt = none := by
      unfold tmplTopCounts
      rw [if_pos (Or.inl h2), hx]
      rfl
    unfold prompt_to_code templates
    rw [runTemplates_cons_none h1, runTemplates_cons_none hc]
    rfl
  · intro hall
    unfold prompt_to_code
    exact runTemplates_eq_none hall

theorem claim8_extraction_failure_falls_through_witness :
    prompt_to_code promptEmptyCol dfNum2 =
      runTemplates (templates.drop 2) (normPrompt promptEmptyCol) promptEmptyCol ∧
    ((∀ t ∈ templates, t (normPrompt promptEmptyCol) promptEmptyCol = none) →
      prompt_to_code promptEmptyCol dfNum2 = none) :=
  claim8_extraction_failure_falls_through promptEmptyCol dfNum2 (by decide) (by decide) (by decide)

/-- C1: the round trip fails on the scatter suggestion. On a dataset with two
numeric columns the suggestion generator emits the scatter prompt, but the
scatter extraction regex, written in a raw string with doubled backslashes,
demands literal backslash characters that the suggestion does not contain, so
prompt_to_code returns the no-match value none for it. -/
theorem claim1_roundtrip_failure :
    scatterPrompt ("a") ("b") ∈ suggest_prompts parseNever dfNum2 8 ∧
    prompt_to_code (scatterPrompt ("a") ("b")) dfNum2 = none := by
  constructor
  · decide
  · decide

theorem descLe_trans (df : DataFrame) (col : String) :
    ∀ a b c : Nat × List Cell,
      descLe df col a b = true → descLe df col b c = true → descLe df col a c = true := by
  intro a b c hab hbc
  simp only [descLe, decide_eq_true_iff] at hab hbc ⊢
  exact le_trans hbc hab

theorem descLe_total (df : DataFrame) (col : String) :
    ∀ a b : Nat × List Cell, (descLe df col a b || descLe df col b a) = true := by
  intro a b
  simp only [descLe, Bool.or_eq_true, decide_eq_true_iff]
  exact le_total _ _

/-- C9: for the top-ten prompt on the amount column, the synthesized code is
returned by the translation, and its semantics is a list that permutes the
rows of the dataset, is ordered by descending amount, is cut to its first ten
rows, and carries a fresh zero-based index. -/
theorem claim9_top_sorted (df : DataFrame)
    (hwf : df.index.length = df.rows.length)
    (hnum : ∀ r ∈ df.rows, (r.getD (df.colIdx ("amount")) Cell.na).isNum = true) :
    prompt_to_code (topSortedPrompt ("amount")) df = some (topSortedCode ("amount")) ∧
    (∃ l : List (Nat × List Cell),
      l.Perm (df.index.zip df.rows) ∧
      l.Pairwise (fun a b => sortKey df ("amount") b.2 ≤ sortKey df ("amount") a.2) ∧
      (topSortedSem ("amount") df).rows = (l.map Prod.snd).take 10) ∧
    (topSortedSem ("amount") df).index = List.range (min 10 df.rows.length) := by
  refine ⟨?_, ?_, ?_⟩
  · show runTemplates templates (normPrompt (topSortedPrompt ("amount"))) (topSortedPrompt ("amount")) =
      some (topSortedCode ("amount"))
    decide
  · refine ⟨(df.index.zip df.rows).mergeSort (descLe df ("amount")),
      List.mergeSort_perm _ _, ?_, rfl⟩
    have hs := List.sorted_mergeSort (descLe_trans df ("amount")) (descLe_total df ("amount"))
      (df.index.zip df.rows)
    refine hs.imp (fun h => ?_)
    simpa [descLe, decide_eq_true_iff] using h
  · unfold topSortedSem DataFrame.resetIndex
    simp only [DataFrame.headN, DataFrame.sortValuesDesc]
    rw [List.length_take, List.length_map, (List.mergeSort_perm _ _).length_eq,
      List.length_zip, hwf]
    congr 1
    omega

theorem claim9_top_sorted_witness :
    (topSortedSem ("amount") dfAmount).index = List.range (min 10 dfAmount.rows.length) :=
  (claim9_top_sorted dfAmount (by decide) (by decide)).2.2

theorem sum_eq_zero_of_nonneg {l : List ℚ} (hpos : ∀ x ∈ l, 0 ≤ x) (h : l.sum = 0) :
    ∀ x ∈ l, x = 0 := by
  induction l with
  | nil => intro x hx; exact absurd hx (List.not_mem_nil x)
  | cons a t ih =>
    rw [List.sum_cons] at h
    have hta : 0 ≤ a := hpos a (List.mem_cons_self a t)
    have htt : 0 ≤ t.sum :=
      List.sum_nonneg (fun x hx => hpos x (List.mem_cons_of_mem a hx))
    have ha : a = 0 := by linarith
    have ht : t.sum = 0 := by linarith
    intro x hx
    rcases List.mem_cons.mp hx with rfl | hx
    · exact ha
    · exact ih (fun y hy => hpos y (List.mem_cons_of_mem a hy)) ht x hx

theorem qVar_nonneg (l : List ℚ) : 0 ≤ qVar l := by
  unfold qVar
  apply div_nonneg
  · apply List.sum_nonneg
    intro x hx
    obtain ⟨y, _, rfl⟩ := List.mem_map.mp hx
    positivity
  · exact_mod_cast Nat.zero_le _

theorem qVar_zero_mean {l : List ℚ} (h : qVar l = 0) {x : ℚ} (hx : x ∈ l) :
    x = qMean l := by
  unfold qVar at h
  have hne : l ≠ [] := by
    intro he
    subst he
    exact absurd hx (List.not_mem_nil x)
  have hlen : ((l.length : ℚ)) ≠ 0 := by
    rw [Nat.cast_ne_zero]
    exact (List.length_pos.mpr hne).ne'
  rcases div_eq_zero_iff.mp h with hs | hl
  · have hmem : (x - qMean l) ^ 2 ∈ l.map (fun y => (y - qMean l) ^ 2) :=
      List.mem_map_of_mem _ hx
    have hz := sum_eq_zero_of_nonneg (fun z hz => by
      obtain ⟨y, _, rfl⟩ := List.mem_map.mp hz
      positivity) hs _ hmem
    have hsub : x - qMean l = 0 := by
      have h2 : (2 : ℕ) ≠ 0 := by decide
      exact (pow_eq_zero_iff h2).mp hz
    linarith
  · exact absurd hl hlen

theorem zSq_gt_iff {l : List ℚ} {x : ℚ} (hx : x ∈ l) :
    (9 < zSq l x) ↔ (9 * qVar l < (x - qMean l) ^ 2) := by
  unfold zSq
  rcases lt_or_eq_of_le (qVar_nonneg l) with hv | hv
  · exact lt_div_iff₀ hv
  · rw [← hv, div_zero, mul_zero]
    have hzero : x - qMean l = 0 := by
      rw [qVar_zero_mean hv.symm hx]
      ring
    rw [hzero]
    norm_num

theorem rowFlagged_eq_rowOutlier (df : DataFrame) {r : List Cell} (hr : r ∈ df.rows) :
    rowFlagged df r = rowOutlier df r := by
  unfold rowFlagged rowOutlier
  rw [Bool.eq_iff_iff]
  simp only [List.any_eq_true, decide_eq_true_iff]
  constructor
  · rintro ⟨j, hj, hlt⟩
    refine ⟨j, hj, ?_⟩
    have hx : cellRat (r.getD j Cell.na) ∈ colVals df j :=
      List.mem_map_of_mem (fun s => cellRat (s.getD j Cell.na)) hr
    exact (zSq_gt_iff hx).mp hlt
  · rintro ⟨j, hj, hlt⟩
    refine ⟨j, hj, ?_⟩
    have hx : cellRat (r.getD j Cell.na) ∈ colVals df j :=
      List.mem_map_of_mem (fun s => cellRat (s.getD j Cell.na)) hr
    exact (zSq_gt_iff hx).mpr hlt

theorem colValsDropped_eq_colVals {df : DataFrame}
    (hfull : ∀ r ∈ df.rows, rowComplete df r = true) (j : Nat) :
    colValsDropped df j = colVals df j := by
  unfold colValsDropped colVals
  rw [List.filter_eq_self.mpr hfull]

theorem rowFlaggedDropped_eq_rowFlagged {df : DataFrame}
    (hfull : ∀ r ∈ df.rows, rowComplete df r = true) (r : List Cell) :
    rowFlaggedDropped df r = rowFlagged df r := by
  unfold rowFlaggedDropped rowFlagged
  simp only [colValsDropped_eq_colVals hfull]

theorem claim5_counterexample : ¬ claim5Statement := by
  intro h
  have h2 := (h dfMissing).2 (by decide)
  have h3 : anomalyRun dfMissing = Except.error maskLengthError := rfl
  rw [h3] at h2
  exact Except.noConfusion h2

/-- C5 amended: the anomaly code yields the empty table when no column is
numeric; on datasets whose numeric columns carry no missing values it yields
the rows whose squared deviation exceeds nine times the column variance in
some numeric column, the square-root-free form of an absolute z-score above
three, truncated to the first twenty flagged rows and reindexed from zero;
but when a numeric column exists and some numeric cell is missing, dropna
shrinks the boolean mask below the frame length and the run raises instead of
yielding a table, which the sandbox surfaces as an execution error. -/
theorem claim5_anomaly_detection (df : DataFrame) :
    ((numericIdxs df).length = 0 → anomalyRun df = Except.ok emptyFrame) ∧
    ((∀ r ∈ df.rows, ∀ j ∈ numericIdxs df, (r.getD j Cell.na).isNum = true) →
      (numericIdxs df).length ≠ 0 →
      anomalyRun df = Except.ok ⟨df.colNames, df.dtypes,
        List.range ((((df.index.zip df.rows).filter (fun p => rowOutlier df p.2)).take 20).length),
        (((df.index.zip df.rows).filter (fun p => rowOutlier df p.2)).take 20).map Prod.snd⟩) ∧
    ((numericIdxs df).length ≠ 0 →
      (∃ r ∈ df.rows, ∃ j ∈ numericIdxs df, (r.getD j Cell.na).isNum = false) →
      ∃ msg, anomalyRun df = Except.error msg) := by
  refine ⟨?_, ?_, ?_⟩
  · intro h0
    unfold anomalyRun
    rw [if_pos h0]
  · intro hnomiss h0
    have hfull : ∀ r ∈ df.rows, rowComplete df r = true := by
      intro r hr
      unfold rowComplete
      rw [List.all_eq_true]
      intro j hj
      exact hnomiss r hr j hj
    have hlen : (df.rows.filter (fun r => rowComplete df r)).length = df.rows.length := by
      rw [List.filter_eq_self.mpr hfull]
    have hfil : (df.index.zip df.rows).filter (fun p => rowFlaggedDropped df p.2) =
        (df.index.zip df.rows).filter (fun p => rowOutlier df p.2) := by
      apply List.filter_congr
      intro p hp
      obtain ⟨i, r⟩ := p
      rw [rowFlaggedDropped_eq_rowFlagged hfull r]
      exact rowFlagged_eq_rowOutlier df (List.of_mem_zip hp).2
    unfold anomalyRun
    rw [if_neg h0, if_neg (by simp [hlen])]
    simp only [hfil]
  · intro h0 hmiss
    obtain ⟨r, hr, j, hj, hbad⟩ := hmiss
    have hrc : ¬ rowComplete df r = true := by
      intro hc
      unfold rowComplete at hc
      have := List.all_eq_true.mp hc j hj
      rw [hbad] at this
      exact Bool.noConfusion this
    have hlt : (df.rows.filter (fun r => rowComplete df r)).length < df.rows.length :=
      List.length_filter_lt_length_iff_exists.mpr ⟨r, hr, hrc⟩
    refine ⟨maskLengthError, ?_⟩
    unfold anomalyRun
    rw [if_neg h0, if_pos (Nat.ne_of_lt hlt)]

theorem claim5_anomaly_detection_witness :
    anomalyRun dfOutlier = Except.ok ⟨dfOutlier.colNames, dfOutlier.dtypes,
      List.range ((((dfOutlier.index.zip dfOutlier.rows).filter
        (fun p => rowOutlier dfOutlier p.2)).take 20).length),
      (((dfOutlier.index.zip dfOutlier.rows).filter
        (fun p => rowOutlier dfOutlier p.2)).take 20).map Prod.snd⟩ :=
  (claim5_anomaly_detection dfOutlier).2.1 (by decide) (by decide)

end Analyst
